import Mathlib

/-!
Shallow embedding of the NewsFeed record-synchronization and enrichment
pipeline (TypeScript source under `packages/backend/src`), together with
theorems settling the specification claims about it.

Conventions of the embedding:
* JavaScript string attributes are modelled as `Option String` where
  `none` is `undefined`; JS truthiness of such a value (`undefined` and
  `""` are falsy) is `truthy`.
* Source records / DynamoDB key attributes / images are string-valued
  attribute maps (`SourceRecord`).
* Code that can throw is modelled in `Except String`; a `try/catch` in
  the source appears as an explicit `match` on the `Except` value at the
  same place.
* External collaborators (Bedrock invocation plus the JSON parse of its
  response text, SQS publish, `Date.now`) are parameters of the
  functions that call them.
-/

namespace NewsFeed

/-- JS truthiness of an optional string attribute: `undefined` and the
empty string are falsy, every other string is truthy. -/
def truthy : Option String → Bool
  | none => false
  | some s => s != ""

/-- JS `x || d` for an optional string attribute `x` and default `d`:
falsy (`undefined` or `""`) falls through to the default. -/
def jsOrElse (x : Option String) (d : String) : String :=
  match x with
  | none => d
  | some s => if s = "" then d else s

/-- DynamoDB stream event types (`StreamEventType` in `shared/types`). -/
inductive StreamEventType
  | INSERT
  | MODIFY
  | REMOVE
deriving DecidableEq, Repr

/-- A raw source record, DynamoDB key-attribute set, or stream image:
a string-valued attribute map (`Record<string, unknown>` restricted to
the string attributes the transformers read). -/
abbrev SourceRecord := List (String × String)

/-- Attribute lookup on a source record (JS property access; `none` is
`undefined`). -/
def SourceRecord.get (r : SourceRecord) (k : String) : Option String :=
  (r.find? (fun p => p.1 = k)).map (fun p => p.2)

/-- The canonical unified record (`UnifiedRecord` in `shared/types`),
with the fields the pipeline writes.  `content` is the open map the
transformer produced; `ai_summary`/`ai_insight` are the enrichment
outputs (`none` when absent). -/
structure UnifiedRecord where
  PK : String
  SK : String
  source_type : String
  table_name : String
  original_id : String
  record_type : String
  content : List (String × String)
  created_at : String
  updated_at : String
  user_id : Option String
  event_type : StreamEventType
  is_deleted : Bool
  gsi_global_pk : String
  is_archived : Bool
  ai_summary : Option String
  ai_insight : Option String
deriving DecidableEq, Repr

/-- The per-source transformer contract (`RecordTransformer` in
`shared/transformers/index.ts`).  `extractId` throws on missing
required fields, modelled as `Except`.  `extractIdFromKeys` and
`extractUserId` are the optional interface methods. -/
structure RecordTransformer where
  sourceTableName : String
  sourceType : String
  recordType : String
  extractId : SourceRecord → Except String String
  extractIdFromKeys : Option (SourceRecord → Except String String)
  transformContent : SourceRecord → List (String × String)
  getCreatedAt : SourceRecord → Option String
  getUpdatedAt : SourceRecord → Option String
  extractUserId : Option (SourceRecord → Option String)

/-- Embeds `buildUnifiedRecord` of `shared/transformers/index.ts`
(lines 47–71).  `now` is the value of `new Date().toISOString()` taken
once at the top of the function. -/
def buildUnifiedRecord (transformer : RecordTransformer)
    (sourceRecord : SourceRecord) (eventType : StreamEventType)
    (now : String) : Except String UnifiedRecord := do
  let originalId ← transformer.extractId sourceRecord
  pure {
    PK := transformer.sourceTableName ++ "#" ++ originalId
    SK := "RECORD"
    source_type := transformer.sourceType
    table_name := transformer.sourceTableName
    original_id := originalId
    record_type := transformer.recordType
    content := transformer.transformContent sourceRecord
    created_at := jsOrElse (transformer.getCreatedAt sourceRecord) now
    updated_at := jsOrElse (transformer.getUpdatedAt sourceRecord) now
    user_id := match transformer.extractUserId with
      | some f => f sourceRecord
      | none => none
    event_type := eventType
    is_deleted := false
    gsi_global_pk := "GLOBAL"
    is_archived := false
    ai_summary := none
    ai_insight := none }

/-- Embeds `extractIdForDelete` of `shared/transformers/index.ts`
(lines 78–109): tier 1 is the transformer's `extractIdFromKeys` over
the key attributes (when implemented), tier 2 is `extractId` over the
same keys, tier 3 is `extractId` over the `OldImage` when present;
each `try/catch` falls through to the next tier. -/
def extractIdForDelete (transformer : RecordTransformer)
    (keys : SourceRecord) (oldImage : Option SourceRecord) :
    Except String String :=
  let tier3 : Except String String :=
    match oldImage with
    | some oi =>
      match transformer.extractId oi with
      | .ok id => .ok id
      | .error _ =>
        .error "Cannot extract ID for delete: no valid keys or oldImage"
    | none =>
      .error "Cannot extract ID for delete: no valid keys or oldImage"
  let tier2 : Except String String :=
    match transformer.extractId keys with
    | .ok id => .ok id
    | .error _ => tier3
  match transformer.extractIdFromKeys with
  | some f =>
    match f keys with
    | .ok id => .ok id
    | .error _ => tier2
  | none => tier2

/-- Embeds `notesTransformer` of `shared/transformers/index.ts`
(lines 114–137): identity is `userId#noteId`, content maps `title`,
`content` and `aiTags` to `noteTitle`, `noteContent`, `noteAiTags`. -/
def notesTransformer : RecordTransformer := {
  sourceTableName := "nexusnote-notes-production"
  sourceType := "personal"
  recordType := "NOTE"
  extractId := fun record =>
    let userId := record.get "userId"
    let noteId := record.get "noteId"
    if !truthy userId || !truthy noteId then
      .error "Missing userId or noteId"
    else
      .ok (jsOrElse userId "" ++ "#" ++ jsOrElse noteId "")
  extractIdFromKeys := none
  transformContent := fun record =>
    [("noteTitle", jsOrElse (record.get "title") ""),
     ("noteContent", jsOrElse (record.get "content") ""),
     ("noteAiTags", jsOrElse (record.get "aiTags") "")]
  getCreatedAt := fun record => record.get "createdAt"
  getUpdatedAt := fun record => record.get "updatedAt"
  extractUserId := some (fun record => record.get "userId") }

/-- Embeds `thoughtsTransformer` of `shared/transformers/index.ts`
(lines 178–200): identity is `userId#thoughtId`; both timestamps read
the source `createdAt` attribute (the source has no `updatedAt`). -/
def thoughtsTransformer : RecordTransformer := {
  sourceTableName := "nexusnote-thoughts-production"
  sourceType := "personal"
  recordType := "THOUGHT"
  extractId := fun record =>
    let userId := record.get "userId"
    let thoughtId := record.get "thoughtId"
    if !truthy userId || !truthy thoughtId then
      .error "Missing userId or thoughtId"
    else
      .ok (jsOrElse userId "" ++ "#" ++ jsOrElse thoughtId "")
  extractIdFromKeys := none
  transformContent := fun record =>
    [("thoughtContent", jsOrElse (record.get "content") ""),
     ("thoughtTag", jsOrElse (record.get "tagName") "")]
  getCreatedAt := fun record => record.get "createdAt"
  getUpdatedAt := fun record => record.get "createdAt"
  extractUserId := some (fun record => record.get "userId") }

/-- Embeds `soliloquiesTransformer` of `shared/transformers/index.ts`
(lines 311–339); it is the one registry transformer implementing the
optional `extractIdFromKeys` (`soliloquyId || PK || id`). -/
def soliloquiesTransformer : RecordTransformer := {
  sourceTableName := "nexusnote-soliloquies-production"
  sourceType := "personal"
  recordType := "SOLILOQUY"
  extractId := fun record =>
    let id := record.get "soliloquyId"
    if !truthy id then .error "Missing soliloquyId"
    else .ok (jsOrElse id "")
  extractIdFromKeys := some (fun keys =>
    let id :=
      jsOrElse (keys.get "soliloquyId")
        (jsOrElse (keys.get "PK") (jsOrElse (keys.get "id") ""))
    if id = "" then .error "Cannot extract ID from keys for REMOVE event"
    else .ok id)
  transformContent := fun record =>
    [("voiceNoteTranscript", jsOrElse (record.get "normalizedContent") ""),
     ("voiceNoteDurationSeconds", jsOrElse (record.get "durationSeconds") "0")]
  getCreatedAt := fun record => record.get "createdAt"
  getUpdatedAt := fun record => record.get "processedAt"
  extractUserId := some (fun record => record.get "userId") }

/-- The unified DynamoDB table, modelled as a list of rows; a row's key
attributes are its own `PK`/`SK` fields, as in DynamoDB. -/
abbrev UnifiedStore := List UnifiedRecord

/-- Whether a stored row has the given key. -/
def sameKey (r : UnifiedRecord) (pk sk : String) : Bool :=
  r.PK == pk && r.SK == sk

/-- Point get by `(PK, SK)` (the `GetCommand` of the unified table). -/
def storeGet (store : UnifiedStore) (pk sk : String) :
    Option UnifiedRecord :=
  store.find? (fun r => sameKey r pk sk)

/-- Embeds `putUnifiedRecord` of `shared/utils/dynamodb-client.ts`:
an unconditional `PutCommand`, overwriting the row with the record's
key. -/
def putUnifiedRecord (store : UnifiedStore) (record : UnifiedRecord) :
    UnifiedStore :=
  record :: store.filter (fun r => !sameKey r record.PK record.SK)

/-- Result of a soft delete: the updated table plus the warnings the
function logged. -/
structure SoftDeleteResult where
  store : UnifiedStore
  warnings : List String
deriving DecidableEq, Repr

/-- Embeds `softDeleteUnifiedRecord` of `shared/utils/dynamodb-client.ts`
(lines 107–147 of the file as served): get the existing row; when it is
missing, log a warning and return; otherwise write the row back with
`is_deleted := true`, `event_type := REMOVE` and `updated_at`
refreshed to `now`. -/
def softDeleteUnifiedRecord (store : UnifiedStore) (pk sk now : String) :
    SoftDeleteResult :=
  match storeGet store pk sk with
  | none => ⟨store, ["Record not found for soft delete"]⟩
  | some item =>
    ⟨putUnifiedRecord store
      { item with is_deleted := true, event_type := .REMOVE,
                  updated_at := now }, []⟩

/-- A message on the AI-enrichment dead-letter queue (`DlqMessage` of
`shared/services/dlq-service.ts`). -/
structure DlqMessage where
  record : UnifiedRecord
  errorType : String
  errorMessage : String
  timestamp : String
  retryCount : Nat
deriving DecidableEq, Repr

/-- Outcome of one SQS `SendMessageCommand` (environment behaviour of
the durable queue). -/
inductive PublishOutcome
  | success
  | failure (msg : String)
deriving DecidableEq, Repr

/-- Embeds `DlqService.sendToQueue` of `shared/services/dlq-service.ts`
(lines 32–85).  `queueUrl` is the constructor's
`process.env.AI_ENRICHMENT_DLQ_URL || ""`; `publish` is the outcome of
the SQS send; `now` is `new Date().toISOString()`.  The value is the
list of messages that reached the queue; the `Except` layer records
whether the call raised (the source catches the publish failure and
does not re-throw, so the error branch of `publish` yields `.ok`). -/
def sendToQueue (queueUrl : String) (publish : PublishOutcome)
    (record : UnifiedRecord) (errorType errorMessage now : String)
    (retryCount : Nat) : Except String (List DlqMessage) :=
  if queueUrl = "" then
    .ok []
  else
    let message : DlqMessage :=
      ⟨record, errorType, errorMessage, now, retryCount⟩
    match publish with
    | .success => .ok [message]
    | .failure _ => .ok []

/-- What one iteration of the `generateEnrichment` retry loop observes
from its environment: the Bedrock invocation (or the decoding of its
response body) throws; or the response text JSON-parses to an object
whose `summary`/`insight` fields have the given truthiness; or the
cleaned response text fails to JSON-parse. -/
inductive AttemptOutcome
  | apiError (msg : String)
  | parsed (summary insight : Option String)
  | parseFailure (msg responseText : String)
deriving DecidableEq, Repr

/-- The retry bound of `AiService.generateEnrichment` (`maxRetries`). -/
def maxRetries : Nat := 3

/-- The enrichment pair `{summary, insight}`. -/
structure SummaryInsight where
  summary : String
  insight : String
deriving DecidableEq, Repr

/-- Embeds the retry loop of `AiService.generateEnrichment`
(`lambdas/thoughts-stream-processor/handler.ts` as served, lines
167–274; the `AiService` variant importing `dlq-service`, whose
behaviour the README and the redrive handler document).  `backend`
gives the outcome of the Bedrock round of each attempt number; `fuel`
is `maxRetries - attempt + 1`.  The value is the returned pair, the
number of invocation attempts made, and the dead-letter messages
published.  A raised exception would surface as `.error`. -/
def generateEnrichmentFrom (queueUrl : String) (publish : PublishOutcome)
    (now : String) (record : UnifiedRecord)
    (backend : Nat → AttemptOutcome) :
    Nat → Nat → Except String (SummaryInsight × Nat × List DlqMessage)
  | _, 0 =>
    .ok (⟨"Unable to generate summary.", "Unable to generate insight."⟩,
      0, [])
  | attempt, fuel + 1 =>
    match backend attempt with
    | .parsed summary insight =>
      .ok (⟨jsOrElse summary "Unable to generate summary.",
            jsOrElse insight "Unable to generate insight."⟩, 1, [])
    | .parseFailure msg responseText =>
      if attempt < maxRetries then do
        let (pair, n, sent) ←
          generateEnrichmentFrom queueUrl publish now record backend
            (attempt + 1) fuel
        .ok (pair, n + 1, sent)
      else do
        let sent ← sendToQueue queueUrl publish record
          "INVALID_JSON_RESPONSE"
          ("Failed after " ++ toString maxRetries ++
            " attempts. Last error: " ++ msg ++ ". Raw: " ++
            responseText.take 200)
          now 0
        .ok (⟨"Unable to generate summary.",
              "Unable to generate insight."⟩, 1, sent)
    | .apiError msg =>
      if attempt < maxRetries then do
        let (pair, n, sent) ←
          generateEnrichmentFrom queueUrl publish now record backend
            (attempt + 1) fuel
        .ok (pair, n + 1, sent)
      else do
        let sent ← sendToQueue queueUrl publish record
          "BEDROCK_API_ERROR"
          ("Failed after " ++ toString maxRetries ++
            " attempts. Last error: " ++ msg)
          now 0
        .ok (⟨"Unable to generate summary.",
              "Unable to generate insight."⟩, 1, sent)

/-- Embeds `AiService.generateEnrichment`: the retry loop entered at
attempt 1. -/
def generateEnrichment (queueUrl : String) (publish : PublishOutcome)
    (now : String) (record : UnifiedRecord)
    (backend : Nat → AttemptOutcome) :
    Except String (SummaryInsight × Nat × List DlqMessage) :=
  generateEnrichmentFrom queueUrl publish now record backend 1 maxRetries

/-- Embeds `enrichUnifiedRecord` of `shared/utils/enrichment.ts`
(lines 11–53): skip when `ai_summary && ai_insight` are both truthy
(idempotency check), skip for `REMOVE` events or already-deleted
records, otherwise call `aiService.generateEnrichment` and attach the
pair; the surrounding `try/catch` sends `ENRICHMENT_FAILED` to the
dead-letter queue and returns fallback text instead of re-throwing.
The value is the resulting record, the number of backend invocation
attempts made, and the dead-letter messages published. -/
def enrichUnifiedRecord (queueUrl : String) (publish : PublishOutcome)
    (now : String) (backend : Nat → AttemptOutcome)
    (record : UnifiedRecord) :
    Except String (UnifiedRecord × Nat × List DlqMessage) :=
  if truthy record.ai_summary && truthy record.ai_insight then
    .ok (record, 0, [])
  else if record.event_type == .REMOVE || record.is_deleted then
    .ok (record, 0, [])
  else
    match generateEnrichment queueUrl publish now record backend with
    | .ok (enrichment, n, sent) =>
      .ok ({ record with
              ai_summary := some enrichment.summary,
              ai_insight := some enrichment.insight }, n, sent)
    | .error e => do
      let sent ← sendToQueue queueUrl publish record
        "ENRICHMENT_FAILED" e now 0
      .ok ({ record with
              ai_summary := some "Unable to generate summary.",
              ai_insight := some "Unable to generate insight." }, 0, sent)

/-- The redrive ceiling of `lambdas/dlq-redrive/handler.ts`
(`MAX_RETRY_COUNT`). -/
def MAX_RETRY_COUNT : Nat := 3

/-- An SQS message received by the redrive handler; `body` is the
parsed `DlqMessage` (the `JSON.parse` of a message the `DlqService`
serialized) and `receiptHandle` the SQS receipt handle (JS-falsy when
empty). -/
structure SqsMessage where
  body : DlqMessage
  receiptHandle : String
deriving DecidableEq, Repr

/-- The aggregate counts the redrive handler returns. -/
structure RedriveResult where
  processed : Nat
  succeeded : Nat
  failed : Nat
  requeued : Nat
deriving DecidableEq, Repr

/-- Observable state accumulated by the redrive loop: the counts, the
receipt handles deleted from the queue, the number of
`enrichUnifiedRecord` invocations, the unified table, and the messages
re-published to the dead-letter queue. -/
structure RedriveState where
  result : RedriveResult
  deletedHandles : List String
  enrichCalls : Nat
  store : UnifiedStore
  dlqOut : List DlqMessage
deriving DecidableEq, Repr

/-- Embeds one iteration of the message loop of the redrive handler
(`lambdas/dlq-redrive/handler.ts`, lines 58–147): skip messages
without a body or receipt handle; abandon and delete when
`retryCount >= MAX_RETRY_COUNT`; otherwise clear the AI fields,
re-attempt enrichment, and either upsert + delete (`succeeded`),
re-queue with `retryCount + 1` + delete (`requeued`), or — on an
exception — count `failed` and leave the message on the queue. -/
def processDlqMessage (queueUrl : String) (publish : PublishOutcome)
    (now : String) (backend : Nat → AttemptOutcome)
    (st : RedriveState) (m : SqsMessage) : RedriveState :=
  if m.receiptHandle = "" then st
  else
    let st := { st with result :=
      { st.result with processed := st.result.processed + 1 } }
    if m.body.retryCount ≥ MAX_RETRY_COUNT then
      { st with
          result := { st.result with failed := st.result.failed + 1 },
          deletedHandles := st.deletedHandles ++ [m.receiptHandle] }
    else
      let cleanRecord :=
        { m.body.record with ai_summary := none, ai_insight := none }
      match enrichUnifiedRecord queueUrl publish now backend cleanRecord with
      | .ok (enrichedRecord, _, sent) =>
        let st := { st with enrichCalls := st.enrichCalls + 1,
                            dlqOut := st.dlqOut ++ sent }
        let enrichmentSucceeded :=
          enrichedRecord.ai_summary != some "Unable to generate summary." &&
          enrichedRecord.ai_insight != some "Unable to generate insight."
        if enrichmentSucceeded then
          { st with
              result :=
                { st.result with succeeded := st.result.succeeded + 1 },
              store := putUnifiedRecord st.store enrichedRecord,
              deletedHandles := st.deletedHandles ++ [m.receiptHandle] }
        else
          match sendToQueue queueUrl publish m.body.record
              "ENRICHMENT_FAILED" "Redrive enrichment failed" now
              (m.body.retryCount + 1) with
          | .ok resent =>
            { st with
                result :=
                  { st.result with requeued := st.result.requeued + 1 },
                dlqOut := st.dlqOut ++ resent,
                deletedHandles := st.deletedHandles ++ [m.receiptHandle] }
          | .error _ =>
            { st with
                result := { st.result with failed := st.result.failed + 1 } }
      | .error _ =>
        { st with
            enrichCalls := st.enrichCalls + 1,
            result := { st.result with failed := st.result.failed + 1 } }

/-- Embeds the redrive handler's loop over one received batch of
messages, started from the zero counts, the given unified table, and
nothing yet deleted or re-queued. -/
def redriveHandler (queueUrl : String) (publish : PublishOutcome)
    (now : String) (backend : Nat → AttemptOutcome)
    (store : UnifiedStore) (messages : List SqsMessage) : RedriveState :=
  messages.foldl (processDlqMessage queueUrl publish now backend)
    ⟨⟨0, 0, 0, 0⟩, [], 0, store, []⟩

/-! Helper lemmas shared by the claim theorems. -/

/-- A truthy optional string is untouched by `jsOrElse`, whatever the
default. -/
theorem jsOrElse_eq_of_truthy {o : Option String} (h : truthy o = true)
    (d d' : String) : jsOrElse o d = jsOrElse o d' := by
  cases o with
  | none => simp [truthy] at h
  | some s =>
    have hs : ¬s = "" := by simpa [truthy] using h
    simp [jsOrElse, hs]

/-- `sendToQueue` never raises: the publish failure is caught. -/
theorem sendToQueue_ok (queueUrl : String) (publish : PublishOutcome)
    (record : UnifiedRecord) (errorType errorMessage now : String)
    (retryCount : Nat) :
    ∃ l, sendToQueue queueUrl publish record errorType errorMessage now
      retryCount = .ok l := by
  unfold sendToQueue
  by_cases hq : queueUrl = ""
  · rw [if_pos hq]; exact ⟨[], rfl⟩
  · rw [if_neg hq]
    cases publish with
    | success => exact ⟨_, rfl⟩
    | failure m => exact ⟨[], rfl⟩

/-- With a configured queue URL and a successful publish, `sendToQueue`
publishes exactly its message. -/
theorem sendToQueue_success {queueUrl : String} (hq : ¬queueUrl = "")
    (record : UnifiedRecord) (errorType errorMessage now : String)
    (retryCount : Nat) :
    sendToQueue queueUrl .success record errorType errorMessage now
      retryCount =
      .ok [⟨record, errorType, errorMessage, now, retryCount⟩] := by
  simp [sendToQueue, hq]

/-- The `generateEnrichment` retry loop never raises. -/
theorem generateEnrichmentFrom_ok (queueUrl : String)
    (publish : PublishOutcome) (now : String) (record : UnifiedRecord)
    (backend : Nat → AttemptOutcome) :
    ∀ (fuel attempt : Nat), ∃ v,
      generateEnrichmentFrom queueUrl publish now record backend attempt
        fuel = .ok v := by
  intro fuel
  induction fuel with
  | zero => intro attempt; exact ⟨_, rfl⟩
  | succ n ih =>
    intro attempt
    cases hbk : backend attempt with
    | parsed s i =>
      refine ⟨(⟨jsOrElse s "Unable to generate summary.",
        jsOrElse i "Unable to generate insight."⟩, 1, []), ?_⟩
      unfold generateEnrichmentFrom
      simp only [hbk]
    | parseFailure m r =>
      by_cases hlt : attempt < maxRetries
      · obtain ⟨⟨pair, cnt, sent⟩, hv⟩ := ih (attempt + 1)
        refine ⟨(pair, cnt + 1, sent), ?_⟩
        unfold generateEnrichmentFrom
        simp only [hbk]
        rw [if_pos hlt, hv]; rfl
      · obtain ⟨l, hl⟩ := sendToQueue_ok queueUrl publish record
          "INVALID_JSON_RESPONSE"
          ("Failed after " ++ toString maxRetries ++
            " attempts. Last error: " ++ m ++ ". Raw: " ++ r.take 200)
          now 0
        refine ⟨(⟨"Unable to generate summary.",
          "Unable to generate insight."⟩, 1, l), ?_⟩
        unfold generateEnrichmentFrom
        simp only [hbk]
        rw [if_neg hlt, hl]; rfl
    | apiError m =>
      by_cases hlt : attempt < maxRetries
      · obtain ⟨⟨pair, cnt, sent⟩, hv⟩ := ih (attempt + 1)
        refine ⟨(pair, cnt + 1, sent), ?_⟩
        unfold generateEnrichmentFrom
        simp only [hbk]
        rw [if_pos hlt, hv]; rfl
      · obtain ⟨l, hl⟩ := sendToQueue_ok queueUrl publish record
          "BEDROCK_API_ERROR"
          ("Failed after " ++ toString maxRetries ++
            " attempts. Last error: " ++ m)
          now 0
        refine ⟨(⟨"Unable to generate summary.",
          "Unable to generate insight."⟩, 1, l), ?_⟩
        unfold generateEnrichmentFrom
        simp only [hbk]
        rw [if_neg hlt, hl]; rfl

/-- The enrichment entry point never raises. -/
theorem enrichUnifiedRecord_ok (queueUrl : String)
    (publish : PublishOutcome) (now : String)
    (backend : Nat → AttemptOutcome) (record : UnifiedRecord) :
    ∃ v, enrichUnifiedRecord queueUrl publish now backend record =
      .ok v := by
  unfold enrichUnifiedRecord
  by_cases h1 : (truthy record.ai_summary && truthy record.ai_insight) = true
  · rw [if_pos h1]; exact ⟨_, rfl⟩
  · rw [if_neg h1]
    by_cases h2 :
      (record.event_type == StreamEventType.REMOVE || record.is_deleted) = true
    · rw [if_pos h2]; exact ⟨_, rfl⟩
    · rw [if_neg h2]
      obtain ⟨⟨pair, cnt, sent⟩, hv⟩ := generateEnrichmentFrom_ok queueUrl
        publish now record backend maxRetries 1
      unfold generateEnrichment
      rw [hv]
      exact ⟨_, rfl⟩

/-- C9: For every transformer, source record, event type (including
`REMOVE`) and build time, a record returned by `buildUnifiedRecord` has
`SK = "RECORD"`, `is_deleted = false`, `is_archived = false` and
`gsi_global_pk = "GLOBAL"`; in particular building from a `REMOVE`
event does not mark the record deleted. -/
theorem claim9_build_invariants (t : RecordTransformer)
    (src : SourceRecord) (ev : StreamEventType) (now : String)
    (r : UnifiedRecord) (h : buildUnifiedRecord t src ev now = .ok r) :
    r.SK = "RECORD" ∧ r.is_deleted = false ∧ r.is_archived = false ∧
    r.gsi_global_pk = "GLOBAL" := by
  unfold buildUnifiedRecord at h
  cases he : t.extractId src with
  | error e =>
    rw [he] at h
    exact absurd h (fun hc => Except.noConfusion hc)
  | ok id =>
    rw [he] at h
    injection h with h
    subst h
    exact ⟨rfl, rfl, rfl, rfl⟩

/-- C9 witness: the invariants hold for a concrete notes `REMOVE`
build. -/
theorem claim9_witness :
    buildUnifiedRecord notesTransformer
        [("userId", "u1"), ("noteId", "n1")] .REMOVE "T0" =
      .ok { PK := "nexusnote-notes-production#u1#n1", SK := "RECORD",
            source_type := "personal",
            table_name := "nexusnote-notes-production",
            original_id := "u1#n1", record_type := "NOTE",
            content := [("noteTitle", ""), ("noteContent", ""),
                        ("noteAiTags", "")],
            created_at := "T0", updated_at := "T0",
            user_id := some "u1", event_type := .REMOVE,
            is_deleted := false, gsi_global_pk := "GLOBAL",
            is_archived := false, ai_summary := none,
            ai_insight := none } ∧
    ("RECORD" = "RECORD" ∧ false = false ∧ false = false ∧
      "GLOBAL" = "GLOBAL") := by
  refine ⟨rfl, ?_⟩
  exact claim9_build_invariants notesTransformer
    [("userId", "u1"), ("noteId", "n1")] .REMOVE "T0" _ rfl

/-- C5: delete identity resolution is the three-tier fallback of
`extractIdForDelete`: the transformer's `extractIdFromKeys` over the
key attributes when implemented, then `extractId` over those keys, then
`extractId` over the pre-change image when present; the first tier that
succeeds determines the identity, and only when all applicable tiers
fail is an error raised for the event. -/
theorem claim5_delete_id_three_tier (t : RecordTransformer)
    (keys : SourceRecord) (oldImage : Option SourceRecord) :
    (∀ f id, t.extractIdFromKeys = some f → f keys = .ok id →
      extractIdForDelete t keys oldImage = .ok id) ∧
    ((t.extractIdFromKeys = none ∨
        ∃ f e, t.extractIdFromKeys = some f ∧ f keys = .error e) →
      ∀ id, t.extractId keys = .ok id →
        extractIdForDelete t keys oldImage = .ok id) ∧
    ((t.extractIdFromKeys = none ∨
        ∃ f e, t.extractIdFromKeys = some f ∧ f keys = .error e) →
      (∃ e, t.extractId keys = .error e) →
      ∀ oi id, oldImage = some oi → t.extractId oi = .ok id →
        extractIdForDelete t keys oldImage = .ok id) ∧
    ((t.extractIdFromKeys = none ∨
        ∃ f e, t.extractIdFromKeys = some f ∧ f keys = .error e) →
      (∃ e, t.extractId keys = .error e) →
      (oldImage = none ∨
        ∃ oi e, oldImage = some oi ∧ t.extractId oi = .error e) →
      extractIdForDelete t keys oldImage =
        .error "Cannot extract ID for delete: no valid keys or oldImage") := by
  refine ⟨?_, ?_, ?_, ?_⟩
  · intro f id hf hok
    simp [extractIdForDelete, hf, hok]
  · intro h1 id hok
    rcases h1 with h1 | ⟨f, e, hf, herr⟩
    · simp [extractIdForDelete, h1, hok]
    · simp [extractIdForDelete, hf, herr, hok]
  · rintro h1 ⟨e2, h2⟩ oi id hoi hok
    subst hoi
    rcases h1 with h1 | ⟨f, e, hf, herr⟩
    · simp [extractIdForDelete, h1, h2, hok]
    · simp [extractIdForDelete, hf, herr, h2, hok]
  · rintro h1 ⟨e2, h2⟩ h3
    rcases h3 with h3 | ⟨oi, e3, hoi, herr3⟩
    · subst h3
      rcases h1 with h1 | ⟨f, e, hf, herr⟩
      · simp [extractIdForDelete, h1, h2]
      · simp [extractIdForDelete, hf, herr, h2]
    · subst hoi
      rcases h1 with h1 | ⟨f, e, hf, herr⟩
      · simp [extractIdForDelete, h1, h2, herr3]
      · simp [extractIdForDelete, hf, herr, h2, herr3]

/-- C5 witness: a soliloquies `REMOVE` event whose key attributes lack
every identity field still resolves through tier 3 from the pre-change
image. -/
theorem claim5_witness :
    extractIdForDelete soliloquiesTransformer []
      (some [("soliloquyId", "s1")]) = .ok "s1" := by
  exact (claim5_delete_id_three_tier soliloquiesTransformer []
      (some [("soliloquyId", "s1")])).2.2.1
    (Or.inr ⟨_, _, rfl, rfl⟩) ⟨_, rfl⟩ _ _ rfl rfl

/-- C8: for every record, error type, message, retry count, queue
configuration and publish behaviour (including failure), the
dead-letter send never raises, and for every publish behaviour the
caller's enrichment path still completes without raising. -/
theorem claim8_dlq_send_never_throws :
    ∀ (queueUrl : String) (publish : PublishOutcome)
      (record : UnifiedRecord) (errorType errorMessage now : String)
      (retryCount : Nat),
      (sendToQueue queueUrl publish record errorType errorMessage now
        retryCount).isOk = true ∧
      (∀ backend,
        (enrichUnifiedRecord queueUrl publish now backend record).isOk =
          true) := by
  intro queueUrl publish record errorType errorMessage now retryCount
  constructor
  · obtain ⟨l, hl⟩ := sendToQueue_ok queueUrl publish record errorType
      errorMessage now retryCount
    simp [hl, Except.isOk, Except.toBool]
  · intro backend
    obtain ⟨v, hv⟩ := enrichUnifiedRecord_ok queueUrl publish now backend
      record
    simp [hv, Except.isOk, Except.toBool]

/-- C10: with no dead-letter queue URL configured (the environment
variable unset or empty, so the service's `queueUrl` is `""`), the send
operation returns without publishing anything, for every record, error
type, message, retry count and publish behaviour. -/
theorem claim10_unconfigured_dlq_noop :
    ∀ (publish : PublishOutcome) (record : UnifiedRecord)
      (errorType errorMessage now : String) (retryCount : Nat),
      sendToQueue "" publish record errorType errorMessage now
        retryCount = .ok [] := by
  intro publish record errorType errorMessage now retryCount
  simp [sendToQueue]

/-- When `generateEnrichment` runs with at least one attempt of fuel
it makes at least one backend invocation. -/
theorem generateEnrichmentFrom_pos (queueUrl : String)
    (publish : PublishOutcome) (now : String) (record : UnifiedRecord)
    (backend : Nat → AttemptOutcome) (attempt k : Nat)
    (v : SummaryInsight × Nat × List DlqMessage)
    (h : generateEnrichmentFrom queueUrl publish now record backend
      attempt (k + 1) = .ok v) : 1 ≤ v.2.1 := by
  unfold generateEnrichmentFrom at h
  cases hbk : backend attempt with
  | parsed s i =>
    simp only [hbk] at h
    injection h with h
    subst h
    exact le_refl 1
  | parseFailure m r =>
    simp only [hbk] at h
    by_cases hlt : attempt < maxRetries
    · rw [if_pos hlt] at h
      rcases hr : generateEnrichmentFrom queueUrl publish now record
          backend (attempt + 1) k with e | w
      · rw [hr] at h; exact absurd h (fun hc => Except.noConfusion hc)
      · obtain ⟨p, n, s'⟩ := w
        rw [hr] at h
        injection h with h
        subst h
        exact Nat.le_add_left 1 n
    · rw [if_neg hlt] at h
      obtain ⟨l, hl⟩ := sendToQueue_ok queueUrl publish record
        "INVALID_JSON_RESPONSE"
        ("Failed after " ++ toString maxRetries ++
          " attempts. Last error: " ++ m ++ ". Raw: " ++ r.take 200)
        now 0
      rw [hl] at h
      injection h with h
      subst h
      exact le_refl 1
  | apiError m =>
    simp only [hbk] at h
    by_cases hlt : attempt < maxRetries
    · rw [if_pos hlt] at h
      rcases hr : generateEnrichmentFrom queueUrl publish now record
          backend (attempt + 1) k with e | w
      · rw [hr] at h; exact absurd h (fun hc => Except.noConfusion hc)
      · obtain ⟨p, n, s'⟩ := w
        rw [hr] at h
        injection h with h
        subst h
        exact Nat.le_add_left 1 n
    · rw [if_neg hlt] at h
      obtain ⟨l, hl⟩ := sendToQueue_ok queueUrl publish record
        "BEDROCK_API_ERROR"
        ("Failed after " ++ toString maxRetries ++
          " attempts. Last error: " ++ m)
        now 0
      rw [hl] at h
      injection h with h
      subst h
      exact le_refl 1

/-- C2 (amended): enrichment is skipped — the record is returned
unchanged with no backend call and no dead-letter publish — whenever
`summary` and `insight` are both present (truthy), and likewise for
`REMOVE` events and already-deleted records; whenever neither guard
holds (the fields are not BOTH present and the event is not a
deletion), at least one backend invocation is made. -/
theorem claim2_enrichment_guard :
    ∀ (queueUrl : String) (publish : PublishOutcome) (now : String)
      (backend : Nat → AttemptOutcome) (record : UnifiedRecord),
      (truthy record.ai_summary = true → truthy record.ai_insight = true →
        enrichUnifiedRecord queueUrl publish now backend record =
          .ok (record, 0, [])) ∧
      (record.event_type = .REMOVE ∨ record.is_deleted = true →
        enrichUnifiedRecord queueUrl publish now backend record =
          .ok (record, 0, [])) ∧
      (¬(truthy record.ai_summary = true ∧ truthy record.ai_insight = true) →
        ¬(record.event_type = .REMOVE ∨ record.is_deleted = true) →
        ∀ rec' n sent,
          enrichUnifiedRecord queueUrl publish now backend record =
            .ok (rec', n, sent) → 1 ≤ n) := by
  intro queueUrl publish now backend record
  refine ⟨?_, ?_, ?_⟩
  · intro hs hi
    have hg : (truthy record.ai_summary && truthy record.ai_insight) = true := by
      rw [hs, hi]; rfl
    unfold enrichUnifiedRecord
    rw [if_pos hg]
  · intro hrem
    unfold enrichUnifiedRecord
    by_cases hg : (truthy record.ai_summary && truthy record.ai_insight) = true
    · rw [if_pos hg]
    · rw [if_neg hg]
      have hg2 :
          (record.event_type == StreamEventType.REMOVE || record.is_deleted) = true := by
        rcases hrem with h | h <;> simp [h]
      rw [if_pos hg2]
  · intro h1 h2 rec' n sent h
    have hg : ¬((truthy record.ai_summary && truthy record.ai_insight) = true) := by
      simpa [Bool.and_eq_true] using h1
    have hg2 :
        ¬((record.event_type == StreamEventType.REMOVE || record.is_deleted) = true) := by
      simpa [Bool.or_eq_true, beq_iff_eq] using h2
    unfold enrichUnifiedRecord at h
    rw [if_neg hg, if_neg hg2] at h
    rcases hr : generateEnrichment queueUrl publish now record backend
        with e | w
    · rw [hr] at h
      obtain ⟨l, hl⟩ := sendToQueue_ok queueUrl publish record
        "ENRICHMENT_FAILED" e now 0
      have hok := generateEnrichmentFrom_ok queueUrl publish now record
        backend maxRetries 1
      obtain ⟨v, hv⟩ := hok
      rw [generateEnrichment] at hr
      rw [hv] at hr
      exact absurd hr (fun hc => Except.noConfusion hc)
    · obtain ⟨pair, cnt, sent'⟩ := w
      rw [hr] at h
      injection h with h
      have hn : n = cnt := by
        have := congrArg (fun p => p.2.1) h
        simpa using this.symm
      subst hn
      have h3 : maxRetries = 2 + 1 := rfl
      rw [generateEnrichment, h3] at hr
      simpa using generateEnrichmentFrom_pos queueUrl publish now record
        backend 1 2 (pair, n, sent') hr

/-- C2 counterexample: a record whose `summary` is present but whose
`insight` is absent — so `summary`/`insight` are not both absent — is
still enriched: one backend invocation is made and the record comes
back changed, refuting "performs enrichment only when summary and
insight are both absent". -/
theorem claim2_counterexample :
    truthy (some "S") = true ∧
    enrichUnifiedRecord "" .success "T"
        (fun _ => .parsed (some "A") (some "B"))
        { PK := "p", SK := "RECORD", source_type := "personal",
          table_name := "t", original_id := "o", record_type := "NOTE",
          content := [], created_at := "c", updated_at := "u",
          user_id := none, event_type := .INSERT, is_deleted := false,
          gsi_global_pk := "GLOBAL", is_archived := false,
          ai_summary := some "S", ai_insight := none } =
      .ok ({ PK := "p", SK := "RECORD", source_type := "personal",
             table_name := "t", original_id := "o", record_type := "NOTE",
             content := [], created_at := "c", updated_at := "u",
             user_id := none, event_type := .INSERT, is_deleted := false,
             gsi_global_pk := "GLOBAL", is_archived := false,
             ai_summary := some "A", ai_insight := some "B" }, 1, []) :=
  ⟨rfl, rfl⟩

/-- C2 witness: on a concrete fully-enriched record, the service
returns the record unchanged with zero backend calls. -/
theorem claim2_witness :
    enrichUnifiedRecord "q" .success "T" (fun _ => .apiError "x")
        { PK := "p", SK := "RECORD", source_type := "personal",
          table_name := "t", original_id := "o", record_type := "NOTE",
          content := [], created_at := "c", updated_at := "u",
          user_id := none, event_type := .INSERT, is_deleted := false,
          gsi_global_pk := "GLOBAL", is_archived := false,
          ai_summary := some "S", ai_insight := some "I" } =
      .ok ({ PK := "p", SK := "RECORD", source_type := "personal",
             table_name := "t", original_id := "o", record_type := "NOTE",
             content := [], created_at := "c", updated_at := "u",
             user_id := none, event_type := .INSERT, is_deleted := false,
             gsi_global_pk := "GLOBAL", is_archived := false,
             ai_summary := some "S", ai_insight := some "I" }, 0, []) :=
  (claim2_enrichment_guard "q" .success "T" (fun _ => .apiError "x")
    _).1 rfl rfl

/-- A row found by key has that key as its own `PK`/`SK` attributes. -/
theorem storeGet_key {store : UnifiedStore} {pk sk : String}
    {item : UnifiedRecord} (h : storeGet store pk sk = some item) :
    item.PK = pk ∧ item.SK = sk := by
  have hp := List.find?_some h
  simpa [sameKey] using hp

/-- Reading back the key just written returns the written record. -/
theorem storeGet_put (store : UnifiedStore) (r : UnifiedRecord) :
    storeGet (putUnifiedRecord store r) r.PK r.SK = some r := by
  unfold storeGet putUnifiedRecord
  have hk : sameKey r r.PK r.SK = true := by simp [sameKey]
  exact List.find?_cons_of_pos _ hk

/-- C6: soft delete on a missing row is a warning-logged no-op that
leaves the table unchanged; on an existing row it writes back that
same row with `is_deleted := true`, `event_type := REMOVE` and
`updated_at := now`, leaving every other field of the row unchanged. -/
theorem claim6_soft_delete :
    ∀ (store : UnifiedStore) (pk sk now : String),
      (storeGet store pk sk = none →
        softDeleteUnifiedRecord store pk sk now =
          ⟨store, ["Record not found for soft delete"]⟩) ∧
      (∀ item, storeGet store pk sk = some item →
        (softDeleteUnifiedRecord store pk sk now).warnings = [] ∧
        storeGet (softDeleteUnifiedRecord store pk sk now).store pk sk =
          some { item with is_deleted := true, event_type := .REMOVE,
                           updated_at := now }) := by
  intro store pk sk now
  constructor
  · intro h
    unfold softDeleteUnifiedRecord
    rw [h]
  · intro item h
    obtain ⟨hpk, hsk⟩ := storeGet_key h
    unfold softDeleteUnifiedRecord
    rw [h]
    refine ⟨rfl, ?_⟩
    have := storeGet_put store
      { item with is_deleted := true, event_type := .REMOVE,
                  updated_at := now }
    simpa [hpk, hsk] using this

/-- C6 witness: soft delete of a concrete existing row marks it
deleted with the other fields intact, and of a missing key is a no-op
on the empty table. -/
theorem claim6_witness :
    (softDeleteUnifiedRecord [] "p" "RECORD" "T1" =
      ⟨[], ["Record not found for soft delete"]⟩) ∧
    (softDeleteUnifiedRecord
        [{ PK := "p", SK := "RECORD", source_type := "personal",
           table_name := "t", original_id := "o", record_type := "NOTE",
           content := [("noteTitle", "Hi")], created_at := "c",
           updated_at := "u", user_id := some "u1",
           event_type := .INSERT, is_deleted := false,
           gsi_global_pk := "GLOBAL", is_archived := false,
           ai_summary := none, ai_insight := none }]
        "p" "RECORD" "T1").warnings = [] ∧
    storeGet (softDeleteUnifiedRecord
        [{ PK := "p", SK := "RECORD", source_type := "personal",
           table_name := "t", original_id := "o", record_type := "NOTE",
           content := [("noteTitle", "Hi")], created_at := "c",
           updated_at := "u", user_id := some "u1",
           event_type := .INSERT, is_deleted := false,
           gsi_global_pk := "GLOBAL", is_archived := false,
           ai_summary := none, ai_insight := none }]
        "p" "RECORD" "T1").store "p" "RECORD" =
      some { PK := "p", SK := "RECORD", source_type := "personal",
             table_name := "t", original_id := "o", record_type := "NOTE",
             content := [("noteTitle", "Hi")], created_at := "c",
             updated_at := "T1", user_id := some "u1",
             event_type := .REMOVE, is_deleted := true,
             gsi_global_pk := "GLOBAL", is_archived := false,
             ai_summary := none, ai_insight := none } := by
  have h2 := (claim6_soft_delete
      [{ PK := "p", SK := "RECORD", source_type := "personal",
         table_name := "t", original_id := "o", record_type := "NOTE",
         content := [("noteTitle", "Hi")], created_at := "c",
         updated_at := "u", user_id := some "u1",
         event_type := .INSERT, is_deleted := false,
         gsi_global_pk := "GLOBAL", is_archived := false,
         ai_summary := none, ai_insight := none }]
      "p" "RECORD" "T1").2
    { PK := "p", SK := "RECORD", source_type := "personal",
      table_name := "t", original_id := "o", record_type := "NOTE",
      content := [("noteTitle", "Hi")], created_at := "c",
      updated_at := "u", user_id := some "u1",
      event_type := .INSERT, is_deleted := false,
      gsi_global_pk := "GLOBAL", is_archived := false,
      ai_summary := none, ai_insight := none } rfl
  exact ⟨(claim6_soft_delete [] "p" "RECORD" "T1").1 rfl, h2.1, h2.2⟩

/-- C7 (amended): building the notes INSERT scenario
`{userId:"u1", noteId:"n1", title:"Hi", content:"Hello"}` yields
`PK = "nexusnote-notes-production#u1#n1"` and `record_type = "NOTE"`
as claimed, but `content` is the registry transformer's field map
`{noteTitle:"Hi", noteContent:"Hello", noteAiTags:""}`, not
`{title:"Hi", content:"Hello"}`. -/
theorem claim7_notes_scenario :
    ∀ now, buildUnifiedRecord notesTransformer
        [("userId", "u1"), ("noteId", "n1"), ("title", "Hi"),
         ("content", "Hello")] .INSERT now =
      .ok { PK := "nexusnote-notes-production#u1#n1", SK := "RECORD",
            source_type := "personal",
            table_name := "nexusnote-notes-production",
            original_id := "u1#n1", record_type := "NOTE",
            content := [("noteTitle", "Hi"), ("noteContent", "Hello"),
                        ("noteAiTags", "")],
            created_at := now, updated_at := now, user_id := some "u1",
            event_type := .INSERT, is_deleted := false,
            gsi_global_pk := "GLOBAL", is_archived := false,
            ai_summary := none, ai_insight := none } :=
  fun _ => rfl

/-- C7 counterexample: on the claimed scenario input the built
record's `content` is `{noteTitle:"Hi", noteContent:"Hello",
noteAiTags:""}`, which differs from the claimed
`{title:"Hi", content:"Hello"}` (and has no `title` key at all). -/
theorem claim7_counterexample :
    (buildUnifiedRecord notesTransformer
        [("userId", "u1"), ("noteId", "n1"), ("title", "Hi"),
         ("content", "Hello")] .INSERT "T0").map (fun r => r.content) =
      .ok [("noteTitle", "Hi"), ("noteContent", "Hello"),
           ("noteAiTags", "")] ∧
    ([("noteTitle", "Hi"), ("noteContent", "Hello"), ("noteAiTags", "")] :
        List (String × String)) ≠ [("title", "Hi"), ("content", "Hello")] ∧
    SourceRecord.get [("noteTitle", "Hi"), ("noteContent", "Hello"),
      ("noteAiTags", "")] "title" = none :=
  ⟨rfl, by decide, rfl⟩

/-- C3 (amended): given an INSERT then a MODIFY for the same identity
processed through build and upsert, the stored record's `created_at`
equals the INSERT's resolved timestamp PROVIDED the transformer
resolves a truthy created-at from the source image and resolves the
same value at both events (as when the source carries an unchanged
`createdAt` attribute); when the source does not expose one, the
MODIFY's build re-resolves "now" and the unconditional upsert
overwrites the INSERT's value. -/
theorem claim3_created_at_preservation :
    ∀ (t : RecordTransformer) (src1 src2 : SourceRecord)
      (now1 now2 : String) (store : UnifiedStore)
      (r1 r2 : UnifiedRecord),
      buildUnifiedRecord t src1 .INSERT now1 = .ok r1 →
      buildUnifiedRecord t src2 .MODIFY now2 = .ok r2 →
      t.extractId src2 = t.extractId src1 →
      t.getCreatedAt src2 = t.getCreatedAt src1 →
      truthy (t.getCreatedAt src1) = true →
      storeGet (putUnifiedRecord (putUnifiedRecord store r1) r2)
        r1.PK r1.SK = some r2 ∧
      r2.created_at = r1.created_at := by
  intro t src1 src2 now1 now2 store r1 r2 h1 h2 hid hca htr
  unfold buildUnifiedRecord at h1 h2
  cases he1 : t.extractId src1 with
  | error e =>
    rw [he1] at h1
    exact absurd h1 (fun hc => Except.noConfusion hc)
  | ok id1 =>
    rw [he1] at h1
    injection h1 with h1
    rw [hid, he1] at h2
    injection h2 with h2
    subst h1
    subst h2
    constructor
    · exact storeGet_put (putUnifiedRecord store _) _
    · show jsOrElse (t.getCreatedAt src2) now2 =
        jsOrElse (t.getCreatedAt src1) now1
      rw [hca]
      exact jsOrElse_eq_of_truthy htr now2 now1

/-- C3 counterexample: for a source that does not expose a created-at
attribute (a thoughts record without `createdAt`), the INSERT resolves
`created_at = "T1"` (its build time) but after the MODIFY's build and
upsert the stored `created_at` is `"T2"` (the MODIFY's build time) —
`created_at` is not preserved across updates. -/
theorem claim3_counterexample :
    buildUnifiedRecord thoughtsTransformer
        [("userId", "u"), ("thoughtId", "t")] .INSERT "T1" =
      .ok { PK := "nexusnote-thoughts-production#u#t", SK := "RECORD",
            source_type := "personal",
            table_name := "nexusnote-thoughts-production",
            original_id := "u#t", record_type := "THOUGHT",
            content := [("thoughtContent", ""), ("thoughtTag", "")],
            created_at := "T1", updated_at := "T1",
            user_id := some "u", event_type := .INSERT,
            is_deleted := false, gsi_global_pk := "GLOBAL",
            is_archived := false, ai_summary := none,
            ai_insight := none } ∧
    ((storeGet (putUnifiedRecord (putUnifiedRecord []
        { PK := "nexusnote-thoughts-production#u#t", SK := "RECORD",
          source_type := "personal",
          table_name := "nexusnote-thoughts-production",
          original_id := "u#t", record_type := "THOUGHT",
          content := [("thoughtContent", ""), ("thoughtTag", "")],
          created_at := "T1", updated_at := "T1",
          user_id := some "u", event_type := .INSERT,
          is_deleted := false, gsi_global_pk := "GLOBAL",
          is_archived := false, ai_summary := none,
          ai_insight := none })
        { PK := "nexusnote-thoughts-production#u#t", SK := "RECORD",
          source_type := "personal",
          table_name := "nexusnote-thoughts-production",
          original_id := "u#t", record_type := "THOUGHT",
          content := [("thoughtContent", ""), ("thoughtTag", "")],
          created_at := "T2", updated_at := "T2",
          user_id := some "u", event_type := .MODIFY,
          is_deleted := false, gsi_global_pk := "GLOBAL",
          is_archived := false, ai_summary := none,
          ai_insight := none })
        "nexusnote-thoughts-production#u#t" "RECORD").map
      (fun r => r.created_at)) = some "T2" ∧
    buildUnifiedRecord thoughtsTransformer
        [("userId", "u"), ("thoughtId", "t")] .MODIFY "T2" =
      .ok { PK := "nexusnote-thoughts-production#u#t", SK := "RECORD",
            source_type := "personal",
            table_name := "nexusnote-thoughts-production",
            original_id := "u#t", record_type := "THOUGHT",
            content := [("thoughtContent", ""), ("thoughtTag", "")],
            created_at := "T2", updated_at := "T2",
            user_id := some "u", event_type := .MODIFY,
            is_deleted := false, gsi_global_pk := "GLOBAL",
            is_archived := false, ai_summary := none,
            ai_insight := none } ∧
    "T2" ≠ "T1" :=
  ⟨rfl, rfl, rfl, by decide⟩

/-- C3 witness: with a source image that carries the same `createdAt`
attribute at both events, the stored `created_at` equals the INSERT's
resolved timestamp. -/
theorem claim3_witness :
    storeGet (putUnifiedRecord (putUnifiedRecord []
        { PK := "nexusnote-thoughts-production#u#t", SK := "RECORD",
          source_type := "personal",
          table_name := "nexusnote-thoughts-production",
          original_id := "u#t", record_type := "THOUGHT",
          content := [("thoughtContent", ""), ("thoughtTag", "")],
          created_at := "C", updated_at := "C",
          user_id := some "u", event_type := .INSERT,
          is_deleted := false, gsi_global_pk := "GLOBAL",
          is_archived := false, ai_summary := none,
          ai_insight := none })
        { PK := "nexusnote-thoughts-production#u#t", SK := "RECORD",
          source_type := "personal",
          table_name := "nexusnote-thoughts-production",
          original_id := "u#t", record_type := "THOUGHT",
          content := [("thoughtContent", ""), ("thoughtTag", "")],
          created_at := "C", updated_at := "C",
          user_id := some "u", event_type := .MODIFY,
          is_deleted := false, gsi_global_pk := "GLOBAL",
          is_archived := false, ai_summary := none,
          ai_insight := none })
        "nexusnote-thoughts-production#u#t" "RECORD" =
      some { PK := "nexusnote-thoughts-production#u#t", SK := "RECORD",
             source_type := "personal",
             table_name := "nexusnote-thoughts-production",
             original_id := "u#t", record_type := "THOUGHT",
             content := [("thoughtContent", ""), ("thoughtTag", "")],
             created_at := "C", updated_at := "C",
             user_id := some "u", event_type := .MODIFY,
             is_deleted := false, gsi_global_pk := "GLOBAL",
             is_archived := false, ai_summary := none,
             ai_insight := none } ∧
    ("C" : String) = "C" :=
  (claim3_created_at_preservation thoughtsTransformer
    [("userId", "u"), ("thoughtId", "t"), ("createdAt", "C")]
    [("userId", "u"), ("thoughtId", "t"), ("createdAt", "C")]
    "T1" "T2" [] _ _ rfl rfl rfl rfl rfl)

/-- With a backend that fails every invocation, the retry loop runs
exactly `maxRetries` attempts, then publishes one `BEDROCK_API_ERROR`
dead-letter message and returns the fallback pair. -/
theorem generateEnrichment_allFail (queueUrl now : String)
    (record : UnifiedRecord) (msgF : Nat → String)
    (hq : ¬queueUrl = "") :
    generateEnrichment queueUrl .success now record
        (fun k => .apiError (msgF k)) =
      .ok (⟨"Unable to generate summary.", "Unable to generate insight."⟩,
        3,
        [⟨record, "BEDROCK_API_ERROR",
          "Failed after " ++ toString maxRetries ++
            " attempts. Last error: " ++ msgF 3, now, 0⟩]) := by
  have hsend := sendToQueue_success hq record "BEDROCK_API_ERROR"
    ("Failed after " ++ toString maxRetries ++
      " attempts. Last error: " ++ msgF 3) now 0
  have h3 : generateEnrichmentFrom queueUrl .success now record
      (fun k => .apiError (msgF k)) 3 (0 + 1) =
      .ok (⟨"Unable to generate summary.",
            "Unable to generate insight."⟩, 1,
        [⟨record, "BEDROCK_API_ERROR",
          "Failed after " ++ toString maxRetries ++
            " attempts. Last error: " ++ msgF 3, now, 0⟩]) := by
    show (sendToQueue queueUrl .success record "BEDROCK_API_ERROR"
        ("Failed after " ++ toString maxRetries ++
          " attempts. Last error: " ++ msgF 3) now 0).bind
      (fun sent => Except.ok
        ((⟨"Unable to generate summary.",
           "Unable to generate insight."⟩ : SummaryInsight), 1, sent)) = _
    rw [hsend]; rfl
  have h2 : generateEnrichmentFrom queueUrl .success now record
      (fun k => .apiError (msgF k)) 2 (1 + 1) =
      .ok (⟨"Unable to generate summary.",
            "Unable to generate insight."⟩, 2,
        [⟨record, "BEDROCK_API_ERROR",
          "Failed after " ++ toString maxRetries ++
            " attempts. Last error: " ++ msgF 3, now, 0⟩]) := by
    show (generateEnrichmentFrom queueUrl .success now record
        (fun k => .apiError (msgF k)) 3 (0 + 1)).bind
      (fun v => Except.ok (v.1, v.2.1 + 1, v.2.2)) = _
    rw [h3]; rfl
  have h1 : generateEnrichmentFrom queueUrl .success now record
      (fun k => .apiError (msgF k)) 1 (2 + 1) =
      .ok (⟨"Unable to generate summary.",
            "Unable to generate insight."⟩, 3,
        [⟨record, "BEDROCK_API_ERROR",
          "Failed after " ++ toString maxRetries ++
            " attempts. Last error: " ++ msgF 3, now, 0⟩]) := by
    show (generateEnrichmentFrom queueUrl .success now record
        (fun k => .apiError (msgF k)) 2 (1 + 1)).bind
      (fun v => Except.ok (v.1, v.2.1 + 1, v.2.2)) = _
    rw [h2]; rfl
  exact h1

/-- C1: the enrichment call never raises an unhandled exception, for
every record and every backend behaviour; and for a generation backend
that fails on every invocation (with the enrichment path entered and a
dead-letter queue configured), the service makes exactly 3 invocation
attempts, publishes exactly one dead-letter message, and returns the
record with deterministic fallback text in its summary/insight
fields. -/
theorem claim1_retry_bound :
    (∀ (queueUrl : String) (publish : PublishOutcome) (now : String)
       (backend : Nat → AttemptOutcome) (record : UnifiedRecord),
       (enrichUnifiedRecord queueUrl publish now backend record).isOk =
         true) ∧
    (∀ (queueUrl now : String) (msgF : Nat → String)
       (record : UnifiedRecord),
       ¬(truthy record.ai_summary = true ∧ truthy record.ai_insight = true) →
       record.event_type ≠ .REMOVE → record.is_deleted = false →
       ¬queueUrl = "" →
       enrichUnifiedRecord queueUrl .success now
           (fun k => .apiError (msgF k)) record =
         .ok ({ record with
                 ai_summary := some "Unable to generate summary.",
                 ai_insight := some "Unable to generate insight." }, 3,
           [⟨record, "BEDROCK_API_ERROR",
             "Failed after " ++ toString maxRetries ++
               " attempts. Last error: " ++ msgF 3, now, 0⟩])) := by
  constructor
  · intro queueUrl publish now backend record
    obtain ⟨v, hv⟩ := enrichUnifiedRecord_ok queueUrl publish now backend
      record
    simp [hv, Except.isOk, Except.toBool]
  · intro queueUrl now msgF record h1 h2 h3 hq
    have hg : ¬((truthy record.ai_summary && truthy record.ai_insight) = true) := by
      simpa [Bool.and_eq_true] using h1
    have hg2 :
        ¬((record.event_type == StreamEventType.REMOVE || record.is_deleted) = true) := by
      simp [Bool.or_eq_true, beq_iff_eq]
      exact ⟨h2, by simp [h3]⟩
    unfold enrichUnifiedRecord
    rw [if_neg hg, if_neg hg2,
      generateEnrichment_allFail queueUrl now record msgF hq]

/-- C1 witness: a concrete unenriched INSERT record with an
always-timing-out backend and a configured queue produces exactly 3
attempts, one dead-letter message, and fallback text. -/
theorem claim1_witness :
    ¬(truthy (none : Option String) = true ∧
      truthy (none : Option String) = true) ∧
    enrichUnifiedRecord "q" .success "T"
        (fun _ => .apiError "timeout")
        { PK := "p", SK := "RECORD", source_type := "personal",
          table_name := "t", original_id := "o", record_type := "NOTE",
          content := [], created_at := "c", updated_at := "u",
          user_id := none, event_type := .INSERT, is_deleted := false,
          gsi_global_pk := "GLOBAL", is_archived := false,
          ai_summary := none, ai_insight := none } =
      .ok ({ PK := "p", SK := "RECORD", source_type := "personal",
             table_name := "t", original_id := "o", record_type := "NOTE",
             content := [], created_at := "c", updated_at := "u",
             user_id := none, event_type := .INSERT, is_deleted := false,
             gsi_global_pk := "GLOBAL", is_archived := false,
             ai_summary := some "Unable to generate summary.",
             ai_insight := some "Unable to generate insight." }, 3,
        [⟨{ PK := "p", SK := "RECORD", source_type := "personal",
            table_name := "t", original_id := "o", record_type := "NOTE",
            content := [], created_at := "c", updated_at := "u",
            user_id := none, event_type := .INSERT, is_deleted := false,
            gsi_global_pk := "GLOBAL", is_archived := false,
            ai_summary := none, ai_insight := none },
          "BEDROCK_API_ERROR",
          "Failed after 3 attempts. Last error: timeout", "T", 0⟩]) :=
  ⟨by decide,
    claim1_retry_bound.2 "q" "T" (fun _ => "timeout")
      { PK := "p", SK := "RECORD", source_type := "personal",
        table_name := "t", original_id := "o", record_type := "NOTE",
        content := [], created_at := "c", updated_at := "u",
        user_id := none, event_type := .INSERT, is_deleted := false,
        gsi_global_pk := "GLOBAL", is_archived := false,
        ai_summary := none, ai_insight := none }
      (by decide) (by decide) rfl (by decide)⟩

/-- Abandon step of the redrive loop: a message at or above the retry
ceiling is counted `failed` and deleted, and nothing else changes. -/
theorem processDlqMessage_abandon (queueUrl : String)
    (publish : PublishOutcome) (now : String)
    (backend : Nat → AttemptOutcome) (st : RedriveState)
    (m : SqsMessage) (hh : ¬m.receiptHandle = "")
    (hge : MAX_RETRY_COUNT ≤ m.body.retryCount) :
    processDlqMessage queueUrl publish now backend st m =
      { st with
          result := { st.result with
            processed := st.result.processed + 1,
            failed := st.result.failed + 1 },
          deletedHandles := st.deletedHandles ++ [m.receiptHandle] } := by
  unfold processDlqMessage
  rw [if_neg hh, if_pos hge]

/-- Below the ceiling, the redrive loop makes exactly one enrichment
attempt for the message, leaves `failed` unchanged, and only appends
to the deleted handles. -/
theorem processDlqMessage_below (queueUrl : String)
    (publish : PublishOutcome) (now : String)
    (backend : Nat → AttemptOutcome) (st : RedriveState)
    (m : SqsMessage) (hh : ¬m.receiptHandle = "")
    (hlt : m.body.retryCount < MAX_RETRY_COUNT) :
    (processDlqMessage queueUrl publish now backend st m).enrichCalls =
      st.enrichCalls + 1 ∧
    (processDlqMessage queueUrl publish now backend st m).result.failed =
      st.result.failed ∧
    ∃ ds, (processDlqMessage queueUrl publish now backend st m).deletedHandles =
      st.deletedHandles ++ ds := by
  have hnge : ¬(MAX_RETRY_COUNT ≤ m.body.retryCount) := not_le.mpr hlt
  obtain ⟨⟨er, n, sent⟩, he⟩ := enrichUnifiedRecord_ok queueUrl publish
    now backend
    { m.body.record with ai_summary := none, ai_insight := none }
  unfold processDlqMessage
  rw [if_neg hh, if_neg hnge]
  simp only [he]
  by_cases hs :
      (er.ai_summary != some "Unable to generate summary." &&
       er.ai_insight != some "Unable to generate insight.") = true
  · rw [if_pos hs]
    exact ⟨rfl, rfl, ⟨[m.receiptHandle], rfl⟩⟩
  · rw [if_neg hs]
    obtain ⟨l, hl⟩ := sendToQueue_ok queueUrl publish m.body.record
      "ENRICHMENT_FAILED" "Redrive enrichment failed" now
      (m.body.retryCount + 1)
    rw [hl]
    exact ⟨rfl, rfl, ⟨[m.receiptHandle], rfl⟩⟩

/-- One redrive step never removes previously deleted handles. -/
theorem processDlqMessage_deleted_mono (queueUrl : String)
    (publish : PublishOutcome) (now : String)
    (backend : Nat → AttemptOutcome) (st : RedriveState)
    (m : SqsMessage) :
    ∃ ds, (processDlqMessage queueUrl publish now backend st m).deletedHandles =
      st.deletedHandles ++ ds := by
  unfold processDlqMessage
  by_cases hh : m.receiptHandle = ""
  · rw [if_pos hh]
    exact ⟨[], (List.append_nil _).symm⟩
  · rw [if_neg hh]
    by_cases hge : MAX_RETRY_COUNT ≤ m.body.retryCount
    · rw [if_pos hge]
      exact ⟨[m.receiptHandle], rfl⟩
    · rw [if_neg hge]
      obtain ⟨⟨er, n, sent⟩, he⟩ := enrichUnifiedRecord_ok queueUrl
        publish now backend
        { m.body.record with ai_summary := none, ai_insight := none }
      simp only [he]
      by_cases hs :
          (er.ai_summary != some "Unable to generate summary." &&
           er.ai_insight != some "Unable to generate insight.") = true
      · rw [if_pos hs]
        exact ⟨[m.receiptHandle], rfl⟩
      · rw [if_neg hs]
        obtain ⟨l, hl⟩ := sendToQueue_ok queueUrl publish m.body.record
          "ENRICHMENT_FAILED" "Redrive enrichment failed" now
          (m.body.retryCount + 1)
        rw [hl]
        exact ⟨[m.receiptHandle], rfl⟩

/-- Behaviour of the redrive loop over a whole batch, for an arbitrary
starting state. -/
theorem redrive_fold_spec (queueUrl : String) (publish : PublishOutcome)
    (now : String) (backend : Nat → AttemptOutcome) :
    ∀ (msgs : List SqsMessage) (st : RedriveState),
      (∀ m ∈ msgs, ¬m.receiptHandle = "") →
      ((msgs.foldl (processDlqMessage queueUrl publish now backend)
          st).enrichCalls =
        st.enrichCalls +
          (msgs.filter
            (fun m => m.body.retryCount < MAX_RETRY_COUNT)).length) ∧
      ((msgs.foldl (processDlqMessage queueUrl publish now backend)
          st).result.failed =
        st.result.failed +
          (msgs.filter
            (fun m => MAX_RETRY_COUNT ≤ m.body.retryCount)).length) ∧
      (∃ ds, (msgs.foldl (processDlqMessage queueUrl publish now backend)
          st).deletedHandles = st.deletedHandles ++ ds) ∧
      (∀ m ∈ msgs, MAX_RETRY_COUNT ≤ m.body.retryCount →
        m.receiptHandle ∈
          (msgs.foldl (processDlqMessage queueUrl publish now backend)
            st).deletedHandles) := by
  intro msgs
  induction msgs with
  | nil =>
    intro st _
    refine ⟨by simp, by simp, ⟨[], by simp⟩, ?_⟩
    intro m hm
    exact absurd hm (List.not_mem_nil m)
  | cons m ms ih =>
    intro st hall
    have hh : ¬m.receiptHandle = "" := hall m (List.mem_cons_self m ms)
    have hall' : ∀ x ∈ ms, ¬x.receiptHandle = "" :=
      fun x hx => hall x (List.mem_cons_of_mem m hx)
    obtain ⟨ih1, ih2, ⟨ds, ihds⟩, ih4⟩ :=
      ih (processDlqMessage queueUrl publish now backend st m) hall'
    rw [List.foldl_cons]
    by_cases hge : MAX_RETRY_COUNT ≤ m.body.retryCount
    · have hab := processDlqMessage_abandon queueUrl publish now backend
        st m hh hge
      have hfa : (m.body.retryCount < MAX_RETRY_COUNT) = False := by
        simp [not_lt.mpr hge]
      have hfb : (MAX_RETRY_COUNT ≤ m.body.retryCount) = True := by
        simp [hge]
      refine ⟨?_, ?_, ?_, ?_⟩
      · rw [ih1, hab]
        simp [List.filter_cons, hfa]
      · rw [ih2, hab]
        simp [List.filter_cons, hfb]
        omega
      · refine ⟨[m.receiptHandle] ++ ds, ?_⟩
        rw [ihds, hab]
        simp
      · intro x hx hxge
        rcases List.mem_cons.mp hx with hx | hx
        · subst hx
          rw [ihds, hab]
          simp
        · exact ih4 x hx hxge
    · have hlt : m.body.retryCount < MAX_RETRY_COUNT := not_le.mp hge
      obtain ⟨hb1, hb2, ⟨ds0, hbds⟩⟩ := processDlqMessage_below queueUrl
        publish now backend st m hh hlt
      have hta : (m.body.retryCount < MAX_RETRY_COUNT) = True := by
        simp [hlt]
      have htb : (MAX_RETRY_COUNT ≤ m.body.retryCount) = False := by
        simp [hge]
      refine ⟨?_, ?_, ?_, ?_⟩
      · rw [ih1, hb1]
        simp [List.filter_cons, hta]
        omega
      · rw [ih2, hb2]
        simp [List.filter_cons, htb]
      · refine ⟨ds0 ++ ds, ?_⟩
        rw [ihds, hbds]
        simp
      · intro x hx hxge
        rcases List.mem_cons.mp hx with hx | hx
        · subst hx
          exact absurd hxge hge
        · exact ih4 x hx hxge

/-- C4: for a batch of well-formed dead-letter messages, every message
whose `retry_count` is at least `MAX_RETRY_COUNT` (3) is abandoned by
the Redrive Processor: its receipt handle is deleted from the queue
and it is counted as `failed`, and enrichment is re-attempted exactly
for the messages below the ceiling — none for those at or above it. -/
theorem claim4_redrive_ceiling :
    ∀ (queueUrl : String) (publish : PublishOutcome) (now : String)
      (backend : Nat → AttemptOutcome) (store : UnifiedStore)
      (messages : List SqsMessage),
      (∀ m ∈ messages, ¬m.receiptHandle = "") →
      ((redriveHandler queueUrl publish now backend store
          messages).enrichCalls =
        (messages.filter
          (fun m => m.body.retryCount < MAX_RETRY_COUNT)).length) ∧
      ((redriveHandler queueUrl publish now backend store
          messages).result.failed =
        (messages.filter
          (fun m => MAX_RETRY_COUNT ≤ m.body.retryCount)).length) ∧
      (∀ m ∈ messages, MAX_RETRY_COUNT ≤ m.body.retryCount →
        m.receiptHandle ∈
          (redriveHandler queueUrl publish now backend store
            messages).deletedHandles) := by
  intro queueUrl publish now backend store messages hall
  obtain ⟨h1, h2, _, h4⟩ := redrive_fold_spec queueUrl publish now backend
    messages ⟨⟨0, 0, 0, 0⟩, [], 0, store, []⟩ hall
  exact ⟨by simpa using h1, by simpa using h2, h4⟩

/-- C4 witness: a concrete batch of one message with `retry_count = 3`
is abandoned — zero enrichment attempts, one `failed`, handle
deleted. -/
theorem claim4_witness :
    (redriveHandler "q" .success "T" (fun _ => .apiError "x") []
        [⟨⟨{ PK := "p", SK := "RECORD", source_type := "personal",
             table_name := "t", original_id := "o", record_type := "NOTE",
             content := [], created_at := "c", updated_at := "u",
             user_id := none, event_type := .INSERT, is_deleted := false,
             gsi_global_pk := "GLOBAL", is_archived := false,
             ai_summary := none, ai_insight := none },
           "BEDROCK_API_ERROR", "boom", "T0", 3⟩, "h1"⟩]).enrichCalls =
      0 ∧
    (redriveHandler "q" .success "T" (fun _ => .apiError "x") []
        [⟨⟨{ PK := "p", SK := "RECORD", source_type := "personal",
             table_name := "t", original_id := "o", record_type := "NOTE",
             content := [], created_at := "c", updated_at := "u",
             user_id := none, event_type := .INSERT, is_deleted := false,
             gsi_global_pk := "GLOBAL", is_archived := false,
             ai_summary := none, ai_insight := none },
           "BEDROCK_API_ERROR", "boom", "T0", 3⟩, "h1"⟩]).result.failed =
      1 ∧
    "h1" ∈ (redriveHandler "q" .success "T" (fun _ => .apiError "x") []
        [⟨⟨{ PK := "p", SK := "RECORD", source_type := "personal",
             table_name := "t", original_id := "o", record_type := "NOTE",
             content := [], created_at := "c", updated_at := "u",
             user_id := none, event_type := .INSERT, is_deleted := false,
             gsi_global_pk := "GLOBAL", is_archived := false,
             ai_summary := none, ai_insight := none },
           "BEDROCK_API_ERROR", "boom", "T0", 3⟩, "h1"⟩]).deletedHandles := by
  have h := claim4_redrive_ceiling "q" .success "T"
    (fun _ => .apiError "x") []
    [⟨⟨{ PK := "p", SK := "RECORD", source_type := "personal",
         table_name := "t", original_id := "o", record_type := "NOTE",
         content := [], created_at := "c", updated_at := "u",
         user_id := none, event_type := .INSERT, is_deleted := false,
         gsi_global_pk := "GLOBAL", is_archived := false,
         ai_summary := none, ai_insight := none },
       "BEDROCK_API_ERROR", "boom", "T0", 3⟩, "h1"⟩]
    (by intro m hm; rcases List.mem_singleton.mp hm with h; subst h; decide)
  refine ⟨by simpa using h.1, by simpa using h.2.1, ?_⟩
  exact h.2.2 _ (List.mem_singleton.mpr rfl) (by decide)

end NewsFeed
